import Mathlib

/-!
Shallow embedding of `src/logger/_logger.py` (package `logger`, exporting
module `_logger`): severity levels, the `Message` record, the two formatter
variants (`TextLogger._format`, `ColorfulLogger._format` with
`_color_picker`), the filtering `Logger.log` operation, the `log_level`
setter, the convenience methods and the `create_logger` factory.

Strings are modelled as `List Char`; the Python `dict[str, Any]` payload is
modelled as an ordered association list with integer and string values, and
the `data=None` default of the convenience methods is modelled by an
`Option` around it (Python's `if msg.data:` truthiness treats `None` and
`{}` alike, which `hasData` mirrors).  `json.dumps` with its default
arguments (`ensure_ascii=True`) is modelled by `jsonDumps`.
-/

namespace LoggerPy

/-- The six exported level constants (`TRACE = 0` … `CRITICAL = 50`). -/
def TRACE : Int := 0

def DEBUG : Int := 10

def INFO : Int := 20

def WARN : Int := 30

def ERROR : Int := 40

def CRITICAL : Int := 50

/-- `LogLevel(L).name` of the Python `IntEnum`: defined exactly on the six
named ranks, no result otherwise. -/
def levelName (l : Int) : Option (List Char) :=
  if l = TRACE then some "TRACE".toList
  else if l = DEBUG then some "DEBUG".toList
  else if l = INFO then some "INFO".toList
  else if l = WARN then some "WARN".toList
  else if l = ERROR then some "ERROR".toList
  else if l = CRITICAL then some "CRITICAL".toList
  else none

/-- JSON-serializable value occurring in a message's `data` mapping. -/
inductive Jv where
  | jnum (n : Int)
  | jstr (s : List Char)
deriving DecidableEq, Repr

/-- An ordered `dict[str, ...]` payload. -/
abbrev DataMap := List (List Char × Jv)

/-- Lower-case hexadecimal digit of `n % 16`, as used by `json.dumps` in
`\uXXXX` escapes. -/
def hexDigit (n : Nat) : Char :=
  match n % 16 with
  | 0 => '0' | 1 => '1' | 2 => '2' | 3 => '3'
  | 4 => '4' | 5 => '5' | 6 => '6' | 7 => '7'
  | 8 => '8' | 9 => '9' | 10 => 'a' | 11 => 'b'
  | 12 => 'c' | 13 => 'd' | 14 => 'e' | _ => 'f'

/-- Four hex digits of a code unit, most significant first. -/
def hex4 (n : Nat) : List Char :=
  [hexDigit (n / 4096), hexDigit (n / 256), hexDigit (n / 16), hexDigit n]

/-- How `json.dumps` (default `ensure_ascii=True`) renders one character of
a string: the two-character escapes for quote, backslash and the named
control characters, `\uXXXX` for the remaining control and non-ASCII
characters (a surrogate pair beyond the BMP), the character itself for
printable ASCII. -/
def jsonEscapeChar (c : Char) : List Char :=
  if c = '"' then ['\\', '"']
  else if c = '\\' then ['\\', '\\']
  else if c = '\n' then ['\\', 'n']
  else if c = '\t' then ['\\', 't']
  else if c = '\r' then ['\\', 'r']
  else if c = '\x08' then ['\\', 'b']
  else if c = '\x0c' then ['\\', 'f']
  else if c.toNat < 0x20 then '\\' :: 'u' :: hex4 c.toNat
  else if c.toNat ≤ 0x7e then [c]
  else if c.toNat < 0x10000 then '\\' :: 'u' :: hex4 c.toNat
  else
    ('\\' :: 'u' :: hex4 (0xd800 + (c.toNat - 0x10000) / 0x400)) ++
      ('\\' :: 'u' :: hex4 (0xdc00 + (c.toNat - 0x10000) % 0x400))

/-- `json.dumps` escaping of a whole string body. -/
def jsonEscape (s : List Char) : List Char :=
  (s.map jsonEscapeChar).flatten

/-- Decimal digit character of `n % 10`. -/
def digitChar (n : Nat) : Char :=
  match n % 10 with
  | 0 => '0' | 1 => '1' | 2 => '2' | 3 => '3' | 4 => '4'
  | 5 => '5' | 6 => '6' | 7 => '7' | 8 => '8' | _ => '9'

/-- Decimal rendering of a natural number, accumulator-style with a fuel
argument (the fuel `n + 1` always suffices since each step divides by 10). -/
def natReprGo : Nat → Nat → List Char → List Char
  | 0, _, acc => acc
  | fuel + 1, n, acc =>
    if n < 10 then digitChar (n % 10) :: acc
    else natReprGo fuel (n / 10) (digitChar (n % 10) :: acc)

/-- Decimal rendering of a natural number. -/
def natRepr (n : Nat) : List Char := natReprGo (n + 1) n []

/-- Decimal rendering of an integer, as Python prints it. -/
def intRepr : Int → List Char
  | Int.ofNat n => natRepr n
  | Int.negSucc n => '-' :: natRepr (n + 1)

/-- `json.dumps` rendering of a single value. -/
def jvRender : Jv → List Char
  | Jv.jnum n => intRepr n
  | Jv.jstr s => '"' :: jsonEscape s ++ ['"']

/-- `", ".join`-style interleaving used by `json.dumps` between items. -/
def joinSep (sep : List Char) : List (List Char) → List Char
  | [] => []
  | [x] => x
  | x :: y :: ys => x ++ sep ++ joinSep sep (y :: ys)

/-- `json.dumps` of a dict with the default separators:
`\x7b"k1": v1, "k2": v2\x7d`, keys in their supplied order. -/
def jsonDumps (d : DataMap) : List Char :=
  '\x7b' ::
    joinSep (", ".toList)
      (d.map fun p => '"' :: jsonEscape p.1 ++ ('"' :: ':' :: ' ' :: jvRender p.2))
    ++ ['\x7d']

/-- The `Message` dataclass.  `data` is `Option DataMap` because the
convenience methods pass Python's `None` sentinel when the caller omits
`data`. -/
structure Message where
  msg : List Char
  level : Int
  issuer : List Char
  data : Option DataMap
deriving DecidableEq, Repr

/-- Python truthiness of `msg.data` (`None` and `\x7b\x7d` are falsy). -/
def hasData : Option DataMap → Bool
  | none => false
  | some [] => false
  | some (_ :: _) => true

/-- The `" -> "` separator. -/
def SEP : List Char := " -> ".toList

/-- `TextLogger._format`: `(LEVELNAME)[issuer] message`, then
`" -> " + json.dumps(data)` when `data` is truthy.  `msg.level.name` is a
name lookup on the `IntEnum`, so the result is defined only for the six
named ranks. -/
def textFormat (m : Message) : Option (List Char) :=
  let dataStr : List Char := if hasData m.data then jsonDumps (m.data.getD []) else []
  match levelName m.level with
  | none => none
  | some name =>
    let result := '(' :: name ++ (')' :: '[' :: m.issuer ++ (']' :: ' ' :: m.msg))
    some (if dataStr = [] then result else result ++ SEP ++ dataStr)

/-- `ColorfulLogger._CLEAR`, the ANSI reset sequence. -/
def CLEAR : List Char := "\x1b[0m".toList

/-- `ColorfulLogger._color_picker`: range-based ANSI prefix lookup. -/
def colorPicker (level : Int) : List Char :=
  if level = TRACE then "\x1b[90m".toList
  else if TRACE < level ∧ level ≤ DEBUG then "\x1b[37m".toList
  else if DEBUG < level ∧ level ≤ INFO then "\x1b[34m".toList
  else if INFO < level ∧ level ≤ WARN then "\x1b[33m".toList
  else if WARN < level ∧ level ≤ ERROR then "\x1b[31;1m".toList
  else if ERROR < level ∧ level ≤ CRITICAL then "\x1b[1;38;5;99m".toList
  else "\x1b[1;38;5;51m".toList

/-- `ColorfulLogger._format`: color prefix, `[issuer] message`, optional
`" -> " + json.dumps(data)`, always terminated by `_CLEAR`. -/
def colorFormat (m : Message) : List Char :=
  let dataStr : List Char := if hasData m.data then jsonDumps (m.data.getD []) else []
  let result := colorPicker m.level ++ ('[' :: m.issuer ++ (']' :: ' ' :: m.msg))
  (if dataStr = [] then result else result ++ SEP ++ dataStr) ++ CLEAR

/-- Which `_format` override the instance carries (`TextLogger` vs
`ColorfulLogger`). -/
inductive FormatterKind where
  | plain
  | color
deriving DecidableEq, Repr

/-- Identity of the output stream handed to the logger (`sys.stdout` by
default, or any caller-supplied stream). -/
inductive StreamId where
  | stdout
  | custom (id : Nat)
deriving DecidableEq, Repr

/-- The state of a `Logger` instance: threshold `_level`, `_issuer`,
`_stream` identity, the formatter variant, and the chunks written to the
stream so far. -/
structure LoggerState where
  level : Int
  issuer : List Char
  stream : StreamId
  kind : FormatterKind
  out : List (List Char)
deriving DecidableEq, Repr

/-- Dispatch to the active `_format` override. -/
def LoggerState.formatMsg (st : LoggerState) (m : Message) : Option (List Char) :=
  match st.kind with
  | FormatterKind.plain => textFormat m
  | FormatterKind.color => some (colorFormat m)

/-- `Logger.log`: discard when `msg.level < self._level`, otherwise format
and write the formatted string followed by `"\n"` as one chunk
(`Logger.__log`).  `none` models the `AttributeError` escaping when the
plain formatter's name lookup fails. -/
def LoggerState.log (st : LoggerState) (m : Message) : Option LoggerState :=
  if m.level < st.level then some st
  else
    match st.formatMsg m with
    | none => none
    | some f => some { st with out := st.out ++ [f ++ ['\n']] }

/-- The `log_level` setter: `ValueError` when the value is negative,
otherwise store it (no membership check against the six ranks). -/
def LoggerState.setLogLevel (st : LoggerState) (l : Int) : Except Unit LoggerState :=
  if l < 0 then Except.error ()
  else Except.ok { st with level := l }

/-- A caller that invokes the setter and keeps the prior object when the
call raises. -/
def LoggerState.trySetLogLevel (st : LoggerState) (l : Int) : LoggerState :=
  match st.setLogLevel l with
  | Except.ok s => s
  | Except.error _ => st

/-- The `Message` built by `Logger.trace`. -/
def LoggerState.traceMsg (st : LoggerState) (msg : List Char) (data : Option DataMap) : Message :=
  ⟨msg, TRACE, st.issuer, data⟩

/-- The `Message` built by `Logger.debug`. -/
def LoggerState.debugMsg (st : LoggerState) (msg : List Char) (data : Option DataMap) : Message :=
  ⟨msg, DEBUG, st.issuer, data⟩

/-- The `Message` built by `Logger.info`. -/
def LoggerState.infoMsg (st : LoggerState) (msg : List Char) (data : Option DataMap) : Message :=
  ⟨msg, INFO, st.issuer, data⟩

/-- The `Message` built by `Logger.warning`. -/
def LoggerState.warningMsg (st : LoggerState) (msg : List Char) (data : Option DataMap) : Message :=
  ⟨msg, WARN, st.issuer, data⟩

/-- The `Message` built by `Logger.error`. -/
def LoggerState.errorMsg (st : LoggerState) (msg : List Char) (data : Option DataMap) : Message :=
  ⟨msg, ERROR, st.issuer, data⟩

/-- The `Message` built by `Logger.critical`. -/
def LoggerState.criticalMsg (st : LoggerState) (msg : List Char) (data : Option DataMap) : Message :=
  ⟨msg, CRITICAL, st.issuer, data⟩

/-- `Logger.trace`: build the message and hand it to `log`. -/
def LoggerState.trace (st : LoggerState) (msg : List Char) (data : Option DataMap) : Option LoggerState :=
  st.log (st.traceMsg msg data)

/-- `Logger.warning`: build the message and hand it to `log`. -/
def LoggerState.warning (st : LoggerState) (msg : List Char) (data : Option DataMap) : Option LoggerState :=
  st.log (st.warningMsg msg data)

/-- The `LoggerConfig` dataclass. -/
structure LoggerConfig where
  level : Int
  colors : Bool
  stream : StreamId
deriving DecidableEq, Repr

/-- `LoggerConfig()` with all fields defaulted. -/
def defaultConfig : LoggerConfig := ⟨INFO, false, StreamId.stdout⟩

/-- The `issuer` argument of `create_logger`: either plain text or some
other object carrying a class name (`Logger.__init__` resolves the latter
to `issuer.__class__.__name__`). -/
inductive IssuerArg where
  | str (s : List Char)
  | obj (className : List Char)
deriving DecidableEq, Repr

/-- `Logger.__init__`'s issuer resolution. -/
def resolveIssuer : IssuerArg → List Char
  | IssuerArg.str s => s
  | IssuerArg.obj n => n

/-- `create_logger(config=None, issuer=None)`: default the issuer to
`"root"`, default the config, and wire a `ColorfulLogger` exactly when
`config.colors` is true, else a `TextLogger`. -/
def create_logger (config : Option LoggerConfig) (issuer : Option IssuerArg) : LoggerState :=
  let iss := match issuer with
    | none => "root".toList
    | some a => resolveIssuer a
  let cfg := config.getD defaultConfig
  { level := cfg.level
    issuer := iss
    stream := cfg.stream
    kind := if cfg.colors then FormatterKind.color else FormatterKind.plain
    out := [] }

/-- The ANSI escape byte. -/
def ESC : Char := '\x1b'

/-- String values of the payload carry no ANSI escape byte. -/
def jvAnsiFree : Jv → Bool
  | Jv.jnum _ => true
  | Jv.jstr s => decide (ESC ∉ s)

/-- The payload (keys and string values) carries no ANSI escape byte. -/
def dataAnsiFree (d : Option DataMap) : Prop :=
  ∀ p ∈ d.getD [], ESC ∉ p.1 ∧ jvAnsiFree p.2 = true

/-- The seven ANSI prefixes `_color_picker` can return. -/
def allColors : List (List Char) :=
  ["\x1b[90m".toList, "\x1b[37m".toList, "\x1b[34m".toList, "\x1b[33m".toList,
    "\x1b[31;1m".toList, "\x1b[1;38;5;99m".toList, "\x1b[1;38;5;51m".toList]

theorem hexDigit_ne_esc (n : Nat) : hexDigit n ≠ ESC := by
  unfold hexDigit
  split <;> decide

theorem digitChar_ne_esc (n : Nat) : digitChar n ≠ ESC := by
  unfold digitChar
  split <;> decide

theorem esc_not_mem_hex4 (n : Nat) : ESC ∉ hex4 n := by
  intro h
  simp only [hex4, List.mem_cons, List.not_mem_nil, or_false] at h
  rcases h with h | h | h | h <;> exact hexDigit_ne_esc _ h.symm

theorem esc_not_mem_jsonEscapeChar (c : Char) : ESC ∉ jsonEscapeChar c := by
  intro hmem
  unfold jsonEscapeChar at hmem
  split at hmem
  · revert hmem; decide
  · split at hmem
    · revert hmem; decide
    · split at hmem
      · revert hmem; decide
      · split at hmem
        · revert hmem; decide
        · split at hmem
          · revert hmem; decide
          · split at hmem
            · revert hmem; decide
            · split at hmem
              · revert hmem; decide
              · split at hmem
                · simp only [List.mem_cons] at hmem
                  rcases hmem with h | h | h
                  · revert h; decide
                  · revert h; decide
                  · exact esc_not_mem_hex4 _ h
                · split at hmem
                  · simp only [List.mem_singleton] at hmem
                    rename_i hlow _
                    rw [← hmem] at hlow
                    exact hlow (by decide)
                  · split at hmem
                    · simp only [List.mem_cons] at hmem
                      rcases hmem with h | h | h
                      · revert h; decide
                      · revert h; decide
                      · exact esc_not_mem_hex4 _ h
                    · simp only [List.mem_append, List.mem_cons] at hmem
                      rcases hmem with (h | h | h) | (h | h | h)
                      · revert h; decide
                      · revert h; decide
                      · exact esc_not_mem_hex4 _ h
                      · revert h; decide
                      · revert h; decide
                      · exact esc_not_mem_hex4 _ h

theorem esc_not_mem_jsonEscape (s : List Char) : ESC ∉ jsonEscape s := by
  intro h
  simp only [jsonEscape, List.mem_flatten, List.mem_map] at h
  rcases h with ⟨l, ⟨c, _, rfl⟩, hl⟩
  exact esc_not_mem_jsonEscapeChar c hl

theorem esc_not_mem_natReprGo (fuel : Nat) :
    ∀ (n : Nat) (acc : List Char), ESC ∉ acc → ESC ∉ natReprGo fuel n acc := by
  induction fuel with
  | zero => intro n acc hacc; exact hacc
  | succ fuel ih =>
    intro n acc hacc
    have hcons : ESC ∉ digitChar (n % 10) :: acc := by
      intro h
      rcases List.mem_cons.mp h with h | h
      · exact digitChar_ne_esc _ h.symm
      · exact hacc h
    unfold natReprGo
    split
    · exact hcons
    · exact ih _ _ hcons

theorem esc_not_mem_intRepr (n : Int) : ESC ∉ intRepr n := by
  cases n with
  | ofNat m => exact esc_not_mem_natReprGo (m + 1) m [] (by simp)
  | negSucc m =>
    intro h
    rcases List.mem_cons.mp h with h | h
    · revert h; decide
    · exact esc_not_mem_natReprGo (m + 2) (m + 1) [] (by simp) h

theorem esc_not_mem_jvRender (v : Jv) : ESC ∉ jvRender v := by
  cases v with
  | jnum n => exact esc_not_mem_intRepr n
  | jstr s =>
    intro h
    rcases List.mem_cons.mp h with h | h
    · revert h; decide
    · rcases List.mem_append.mp h with h | h
      · exact esc_not_mem_jsonEscape s h
      · revert h; decide

theorem mem_joinSep {c : Char} (sep : List Char) (ls : List (List Char))
    (h : c ∈ joinSep sep ls) : c ∈ sep ∨ ∃ l ∈ ls, c ∈ l := by
  induction ls with
  | nil => simp [joinSep] at h
  | cons x xs ih =>
    cases xs with
    | nil =>
      right
      exact ⟨x, List.mem_cons_self _ _, h⟩
    | cons y ys =>
      simp only [joinSep, List.mem_append] at h
      rcases h with (h | h) | h
      · right; exact ⟨x, List.mem_cons_self _ _, h⟩
      · left; exact h
      · rcases ih h with h | ⟨l, hl, hc⟩
        · left; exact h
        · right; exact ⟨l, List.mem_cons_of_mem _ hl, hc⟩

theorem esc_not_mem_jsonDumps (d : DataMap) : ESC ∉ jsonDumps d := by
  intro h
  unfold jsonDumps at h
  rcases List.mem_cons.mp h with h | h
  · revert h; decide
  · rcases List.mem_append.mp h with h | h
    · rcases mem_joinSep _ _ h with h | ⟨l, hl, hc⟩
      · revert h; decide
      · simp only [List.mem_map] at hl
        rcases hl with ⟨p, _, rfl⟩
        rcases List.mem_cons.mp hc with h | h
        · revert h; decide
        · rcases List.mem_append.mp h with h | h
          · exact esc_not_mem_jsonEscape _ h
          · rcases List.mem_cons.mp h with h | h
            · revert h; decide
            · rcases List.mem_cons.mp h with h | h
              · revert h; decide
              · rcases List.mem_cons.mp h with h | h
                · revert h; decide
                · exact esc_not_mem_jvRender _ h
    · revert h; decide

theorem esc_not_mem_levelName (l : Int) (nm : List Char)
    (h : levelName l = some nm) : ESC ∉ nm := by
  unfold levelName at h
  split at h
  · cases h; decide
  · split at h
    · cases h; decide
    · split at h
      · cases h; decide
      · split at h
        · cases h; decide
        · split at h
          · cases h; decide
          · split at h
            · cases h; decide
            · cases h

theorem colorPicker_mem_allColors (L : Int) : colorPicker L ∈ allColors := by
  unfold colorPicker
  split
  · decide
  · split
    · decide
    · split
      · decide
      · split
        · decide
        · split
          · decide
          · split
            · decide
            · decide

/-- C1: `log(E)` writes nothing to the sink when `E.level` is below the
threshold, and when `E.level >= threshold` it appends exactly one chunk —
the formatted string followed by a single newline; an event whose level
equals the threshold is emitted. -/
theorem log_strict_threshold_filter (st : LoggerState) (m : Message) :
    (m.level < st.level → st.log m = some st) ∧
    (st.level ≤ m.level → ∀ f, st.formatMsg m = some f →
      st.log m = some { st with out := st.out ++ [f ++ ['\n']] }) := by
  constructor
  · intro h
    simp [LoggerState.log, h]
  · intro h f hf
    simp [LoggerState.log, not_lt.mpr h, hf]

/-- Witness for C1 at threshold `INFO = 20`: a `TRACE` event is discarded
and an event at exactly level 20 appends exactly one newline-terminated
chunk. -/
theorem log_strict_threshold_filter_witness :
    (LoggerState.log ⟨20, "svc".toList, StreamId.stdout, FormatterKind.plain, []⟩
        ⟨"hi".toList, 0, "svc".toList, none⟩ =
      some ⟨20, "svc".toList, StreamId.stdout, FormatterKind.plain, []⟩) ∧
    (LoggerState.log ⟨20, "svc".toList, StreamId.stdout, FormatterKind.plain, []⟩
        ⟨"hi".toList, 20, "svc".toList, none⟩ =
      some ⟨20, "svc".toList, StreamId.stdout, FormatterKind.plain,
        ["(INFO)[svc] hi\n".toList]⟩) := by
  constructor
  · exact (log_strict_threshold_filter _ _).1 (by decide)
  · have h := (log_strict_threshold_filter
      ⟨20, "svc".toList, StreamId.stdout, FormatterKind.plain, []⟩
      ⟨"hi".toList, 20, "svc".toList, none⟩).2 (by decide)
      "(INFO)[svc] hi".toList (by decide)
    exact h.trans (by decide)

/-- C3: `_color_picker` is a half-open-below/closed-above banding over the
integer level — gray at `TRACE`, light gray on `(TRACE, DEBUG]`, blue on
`(DEBUG, INFO]`, yellow on `(INFO, WARN]`, bold red on `(WARN, ERROR]`,
bold magenta on `(ERROR, CRITICAL]`, the fallback above `CRITICAL` — and
every integer level resolves to exactly one of the seven colors. -/
theorem color_picker_banding (L : Int) :
    (L = TRACE → colorPicker L = "\x1b[90m".toList) ∧
    (TRACE < L ∧ L ≤ DEBUG → colorPicker L = "\x1b[37m".toList) ∧
    (DEBUG < L ∧ L ≤ INFO → colorPicker L = "\x1b[34m".toList) ∧
    (INFO < L ∧ L ≤ WARN → colorPicker L = "\x1b[33m".toList) ∧
    (WARN < L ∧ L ≤ ERROR → colorPicker L = "\x1b[31;1m".toList) ∧
    (ERROR < L ∧ L ≤ CRITICAL → colorPicker L = "\x1b[1;38;5;99m".toList) ∧
    (CRITICAL < L → colorPicker L = "\x1b[1;38;5;51m".toList) ∧
    colorPicker L ∈ allColors := by
  simp only [TRACE, DEBUG, INFO, WARN, ERROR, CRITICAL] at *
  refine ⟨?_, ?_, ?_, ?_, ?_, ?_, ?_, colorPicker_mem_allColors L⟩ <;>
    intro h <;>
    simp only [colorPicker, TRACE, DEBUG, INFO, WARN, ERROR, CRITICAL] <;>
    [rw [if_pos (by omega)];
     rw [if_neg (by omega), if_pos (by omega)];
     rw [if_neg (by omega), if_neg (by omega), if_pos (by omega)];
     rw [if_neg (by omega), if_neg (by omega), if_neg (by omega), if_pos (by omega)];
     rw [if_neg (by omega), if_neg (by omega), if_neg (by omega), if_neg (by omega),
       if_pos (by omega)];
     rw [if_neg (by omega), if_neg (by omega), if_neg (by omega), if_neg (by omega),
       if_neg (by omega), if_pos (by omega)];
     rw [if_neg (by omega), if_neg (by omega), if_neg (by omega), if_neg (by omega),
       if_neg (by omega), if_neg (by omega)]]

/-- Witness for C3 at the intermediate level 25: it falls in the WARN band
and gets yellow, one of the seven colors. -/
theorem color_picker_banding_witness :
    colorPicker 25 = "\x1b[33m".toList ∧ colorPicker 25 ∈ allColors :=
  ⟨(color_picker_banding 25).2.2.2.1 (by decide),
    (color_picker_banding 25).2.2.2.2.2.2.2⟩

/-- C6: setting the threshold to a negative value raises `ValueError` and a
caller that recovers from the exception still sees the prior threshold. -/
theorem negative_threshold_rejected (st : LoggerState) (l : Int) (h : l < 0) :
    st.setLogLevel l = Except.error () ∧ (st.trySetLogLevel l).level = st.level := by
  constructor
  · simp [LoggerState.setLogLevel, h]
  · simp [LoggerState.trySetLogLevel, LoggerState.setLogLevel, h]

/-- Witness for C6: setting `-1` on a threshold-20 logger errors and keeps
threshold 20. -/
theorem negative_threshold_rejected_witness :
    (LoggerState.setLogLevel ⟨20, "root".toList, StreamId.stdout, FormatterKind.plain, []⟩
        (-1) = Except.error ()) ∧
    (LoggerState.trySetLogLevel ⟨20, "root".toList, StreamId.stdout, FormatterKind.plain, []⟩
        (-1)).level = 20 :=
  negative_threshold_rejected _ _ (by decide)

/-- C7 counterexample: setting the threshold to 25 — non-negative but not a
named rank — succeeds instead of raising `ValueError`. -/
theorem nonrank_threshold_counterexample :
    (LoggerState.setLogLevel ⟨20, "root".toList, StreamId.stdout, FormatterKind.plain, []⟩ 25 =
      Except.ok ⟨25, "root".toList, StreamId.stdout, FormatterKind.plain, []⟩) ∧
    LoggerState.setLogLevel ⟨20, "root".toList, StreamId.stdout, FormatterKind.plain, []⟩ 25 ≠
      Except.error () := by
  have hok : LoggerState.setLogLevel
      ⟨20, "root".toList, StreamId.stdout, FormatterKind.plain, []⟩ 25 =
      Except.ok ⟨25, "root".toList, StreamId.stdout, FormatterKind.plain, []⟩ := rfl
  refine ⟨hok, ?_⟩
  rw [hok]
  simp

/-- C7 amended: the setter only rejects negative values; every non-negative
integer — including non-rank values such as 25 — is accepted and stored. -/
theorem nonneg_threshold_accepted (st : LoggerState) (l : Int) (h : 0 ≤ l) :
    st.setLogLevel l = Except.ok { st with level := l } := by
  simp [LoggerState.setLogLevel, not_lt.mpr h]

/-- Witness for the amended C7: 25 is stored. -/
theorem nonneg_threshold_accepted_witness :
    LoggerState.setLogLevel ⟨20, "root".toList, StreamId.stdout, FormatterKind.plain, []⟩ 25 =
      Except.ok ⟨25, "root".toList, StreamId.stdout, FormatterKind.plain, []⟩ :=
  nonneg_threshold_accepted _ 25 (by decide)

/-- C8: `create_logger` defaults the issuer to `"root"` when omitted; with
the config omitted the logger has threshold `INFO`, the plain formatter and
the standard-output sink; and a supplied config yields the color formatter
exactly when its `colors` flag is true. -/
theorem create_logger_defaults :
    (∀ cfg : Option LoggerConfig, (create_logger cfg none).issuer = "root".toList) ∧
    (∀ iss : Option IssuerArg,
      (create_logger none iss).level = INFO ∧
      (create_logger none iss).kind = FormatterKind.plain ∧
      (create_logger none iss).stream = StreamId.stdout) ∧
    (∀ (cfg : LoggerConfig) (iss : Option IssuerArg),
      (create_logger (some cfg) iss).kind = FormatterKind.color ↔ cfg.colors = true) := by
  refine ⟨?_, ?_, ?_⟩
  · intro cfg
    simp [create_logger]
  · intro iss
    simp [create_logger, defaultConfig]
  · intro cfg iss
    cases h : cfg.colors <;> simp [create_logger, h]

theorem jsonDumps_ne_nil (d : DataMap) : jsonDumps d ≠ [] := by
  simp [jsonDumps]

theorem textFormat_eq_none (m : Message) (h : levelName m.level = none) :
    textFormat m = none := by
  simp [textFormat, h]

theorem textFormat_eq_some (m : Message) (nm : List Char)
    (h : levelName m.level = some nm) :
    textFormat m = some
      (('(' :: nm ++ (')' :: '[' :: m.issuer ++ (']' :: ' ' :: m.msg))) ++
        (if hasData m.data then SEP ++ jsonDumps (m.data.getD []) else [])) := by
  simp only [textFormat, h]
  cases hd : hasData m.data
  · simp
  · simp only [if_true]
    rw [if_neg (jsonDumps_ne_nil _)]
    simp

theorem colorFormat_eq (m : Message) :
    colorFormat m =
      (colorPicker m.level ++ ('[' :: m.issuer ++ (']' :: ' ' :: m.msg))) ++
        (if hasData m.data then SEP ++ jsonDumps (m.data.getD []) else []) ++ CLEAR := by
  simp only [colorFormat]
  cases hd : hasData m.data
  · simp
  · simp only [if_true]
    rw [if_neg (jsonDumps_ne_nil _)]
    simp

/-- C2: for any event with a named level, the plain formatter returns
`(LEVELNAME)[issuer] message`, followed by `" -> "` and the JSON
serialization of `data` exactly when `data` is non-empty; concretely a
threshold-`INFO`, non-colorized logger with issuer `"svc"`, on
`warning("disk low", \x7b"pct": 91\x7d)`, emits the expected single line. -/
theorem plain_format_shape_and_scenario :
    (∀ (m : Message) (nm : List Char), levelName m.level = some nm →
      textFormat m = some
        (('(' :: nm ++ (')' :: '[' :: m.issuer ++ (']' :: ' ' :: m.msg))) ++
          (if hasData m.data then SEP ++ jsonDumps (m.data.getD []) else []))) ∧
    ((create_logger (some ⟨INFO, false, StreamId.stdout⟩)
        (some (IssuerArg.str "svc".toList))).warning "disk low".toList
        (some [("pct".toList, Jv.jnum 91)]) =
      some ⟨INFO, "svc".toList, StreamId.stdout, FormatterKind.plain,
        ["(WARN)[svc] disk low -> \x7b\"pct\": 91\x7d\n".toList]⟩) := by
  constructor
  · exact fun m nm h => textFormat_eq_some m nm h
  · decide

/-- Witness for C2's general conjunct at a concrete `DEBUG` event with
empty data. -/
theorem plain_format_shape_and_scenario_witness :
    textFormat ⟨"x".toList, 10, "a".toList, some []⟩ =
      some "(DEBUG)[a] x".toList := by
  have h := plain_format_shape_and_scenario.1 ⟨"x".toList, 10, "a".toList, some []⟩
    "DEBUG".toList (by decide)
  exact h.trans (by decide)

/-- C4: every color-formatted string ends with the ANSI reset sequence
(also with empty data), and the plain formatter's output for an event with
a named level and ANSI-free message, issuer and data contains no ANSI
escape byte. -/
theorem color_reset_and_plain_ansi_free :
    (∀ m : Message, CLEAR <:+ colorFormat m) ∧
    (∀ (m : Message) (s : List Char), textFormat m = some s →
      ESC ∉ m.msg → ESC ∉ m.issuer → dataAnsiFree m.data → ESC ∉ s) := by
  constructor
  · intro m
    rw [colorFormat_eq]
    exact List.suffix_append _ _
  · intro m s hfmt h1 h2 _
    cases hnm : levelName m.level with
    | none =>
      rw [textFormat_eq_none m hnm] at hfmt
      cases hfmt
    | some nm =>
      rw [textFormat_eq_some m nm hnm] at hfmt
      injection hfmt with hfmt
      rw [← hfmt]
      intro hmem
      rcases List.mem_append.mp hmem with h | h
      · simp only [List.mem_cons, List.mem_append, or_assoc] at h
        rcases h with h | h | h | h | h | h | h | h
        · revert h; decide
        · exact esc_not_mem_levelName _ _ hnm h
        · revert h; decide
        · revert h; decide
        · exact h2 h
        · revert h; decide
        · revert h; decide
        · exact h1 h
      · revert h
        cases hd : hasData m.data
        · simp
        · simp only [if_true]
          intro h
          rcases List.mem_append.mp h with h | h
          · revert h; decide
          · exact esc_not_mem_jsonDumps _ h

/-- Witness for C4: the color output for a concrete event ends with the
reset sequence, and the plain output for a concrete ANSI-free event
contains no escape byte. -/
theorem color_reset_and_plain_ansi_free_witness :
    (CLEAR <:+ colorFormat ⟨"boom".toList, 40, "root".toList, none⟩) ∧
    ESC ∉ "(INFO)[svc] hi".toList := by
  constructor
  · exact color_reset_and_plain_ansi_free.1 _
  · exact color_reset_and_plain_ansi_free.2 ⟨"hi".toList, 20, "svc".toList, none⟩
      "(INFO)[svc] hi".toList (by decide) (by decide) (by decide)
      (by intro p hp; simp at hp)

/-- C5: under either formatter, empty (or absent) data yields exactly the
header with no `" -> "` separator, and non-empty data yields the header
followed by `" -> "` and the JSON rendering of exactly the supplied pairs
in their supplied order. -/
theorem separator_iff_nonempty_data (m : Message) :
    (hasData m.data = false →
      textFormat m = (levelName m.level).map
        (fun nm => '(' :: nm ++ (')' :: '[' :: m.issuer ++ (']' :: ' ' :: m.msg))) ∧
      colorFormat m =
        colorPicker m.level ++ ('[' :: m.issuer ++ (']' :: ' ' :: m.msg)) ++ CLEAR) ∧
    (hasData m.data = true →
      textFormat m = (levelName m.level).map
        (fun nm => ('(' :: nm ++ (')' :: '[' :: m.issuer ++ (']' :: ' ' :: m.msg))) ++
          SEP ++ jsonDumps (m.data.getD [])) ∧
      colorFormat m =
        colorPicker m.level ++ ('[' :: m.issuer ++ (']' :: ' ' :: m.msg)) ++
          SEP ++ jsonDumps (m.data.getD []) ++ CLEAR) := by
  constructor
  · intro hd
    constructor
    · cases hnm : levelName m.level <;> simp [textFormat, hnm, hd]
    · simp [colorFormat, hd]
  · intro hd
    constructor
    · cases hnm : levelName m.level with
      | none => simp [textFormat, hnm, hd]
      | some nm =>
        simp only [textFormat, hnm, hd, if_true, Option.map_some]
        rw [if_neg (jsonDumps_ne_nil _)]
        simp
    · simp only [colorFormat, hd, if_true]
      rw [if_neg (jsonDumps_ne_nil _)]

/-- Witness for C5 on concrete events: absent data produces no separator,
a one-pair payload produces the separator and its rendering. -/
theorem separator_iff_nonempty_data_witness :
    (textFormat ⟨"hi".toList, 20, "svc".toList, none⟩ = some "(INFO)[svc] hi".toList) ∧
    (textFormat ⟨"hi".toList, 20, "svc".toList, some [("k".toList, Jv.jstr "v".toList)]⟩ =
      some "(INFO)[svc] hi -> \x7b\"k\": \"v\"\x7d".toList) := by
  constructor
  · have h := (separator_iff_nonempty_data ⟨"hi".toList, 20, "svc".toList, none⟩).1
      (by decide)
    exact h.1.trans (by decide)
  · have h := (separator_iff_nonempty_data
      ⟨"hi".toList, 20, "svc".toList, some [("k".toList, Jv.jstr "v".toList)]⟩).2
      (by decide)
    exact h.1.trans (by decide)

/-- C9 counterexample: `trace` with `data` omitted (Python default `None`)
builds a `Message` whose `data` field is the `None` sentinel, not the
empty mapping. -/
theorem omitted_data_not_empty_map_counterexample :
    (LoggerState.traceMsg ⟨20, "root".toList, StreamId.stdout, FormatterKind.plain, []⟩
        "m".toList none).data = none ∧
    (LoggerState.traceMsg ⟨20, "root".toList, StreamId.stdout, FormatterKind.plain, []⟩
        "m".toList none).data ≠ some [] := by
  constructor
  · rfl
  · intro h
    simp [LoggerState.traceMsg] at h

/-- C9 amended: every convenience method called with `data` omitted builds
a `Message` whose `data` field is the `None` sentinel, and both formatters
treat that sentinel exactly like the empty mapping (no separator). -/
theorem omitted_data_is_none_sentinel (st : LoggerState) (msg : List Char) :
    (st.traceMsg msg none).data = none ∧ (st.debugMsg msg none).data = none ∧
    (st.infoMsg msg none).data = none ∧ (st.warningMsg msg none).data = none ∧
    (st.errorMsg msg none).data = none ∧ (st.criticalMsg msg none).data = none ∧
    (∀ (m : List Char) (l : Int) (iss : List Char),
      textFormat ⟨m, l, iss, none⟩ = textFormat ⟨m, l, iss, some []⟩ ∧
      colorFormat ⟨m, l, iss, none⟩ = colorFormat ⟨m, l, iss, some []⟩) := by
  refine ⟨rfl, rfl, rfl, rfl, rfl, rfl, ?_⟩
  intro m l iss
  constructor
  · simp [textFormat, hasData]
  · simp [colorFormat, hasData]

/-- C10: the plain formatter is defined exactly on events whose level is a
named rank (its name lookup has no result otherwise, e.g. at level 25),
while the color band lookup is total — every integer level gets one of the
seven colors. -/
theorem plain_partial_color_total :
    (∀ m : Message, (textFormat m).isSome ↔ (levelName m.level).isSome) ∧
    (∀ (msg iss : List Char) (d : Option DataMap),
      textFormat ⟨msg, 25, iss, d⟩ = none) ∧
    (∀ L : Int, colorPicker L ∈ allColors) := by
  refine ⟨?_, ?_, colorPicker_mem_allColors⟩
  · intro m
    cases hnm : levelName m.level <;> simp [textFormat, hnm]
  · intro msg iss d
    have h25 : levelName 25 = none := by decide
    simp [textFormat, h25]

end LoggerPy
